import Mathlib

/-!
Verification of the CosmicWatch app's ingestion and multi-sink persistence
pipeline, shallowly embedded from the TypeScript sources.

The embedding models:
* the Event Codec (`CosmicWatchDataService.parseRawData` and
  `CosmicWatchDataService.formatDataForFile`), including the JavaScript
  string/number primitives it relies on (`String.prototype.trim`,
  `String.prototype.split(/\s+/)`, `parseInt(_, 10)`, `parseFloat`, and the
  default number-to-string rendering);
* the Redux `onlineData` slice reducers (`setEnabled`, `queueData`,
  `setBatchSettings`, `uploadDataBatch.fulfilled`) and the selector
  `selectOnlineDataBatch`;
* the `OnlineDataService` upload logic (`uploadData` with its 401
  refresh-and-retry recursion, `uploadDataBatch` with its retry ceiling,
  and `exponentialBackoff`);
* the auto-save hooks' capture of `includeComments` at session start
  (`initialIncludeCommentsRef` in `useAutoSave` / `useServerAutoSave`).

JavaScript numbers are idealised as an exact tagged type (`JSNum`): `NaN`,
signed infinity, or an exact rational.  All the concrete values appearing in
the claims are exactly representable IEEE doubles whose decimal parsing and
shortest-form printing agree with the exact rational semantics used here.
-/

set_option maxRecDepth 10000

namespace CosmicWatch

/-- Whitespace characters recognised by the JavaScript regular-expression
class `\s` (restricted to the ASCII range, which is all the serial device can
produce): space, tab, line feed, vertical tab, form feed, carriage return. -/
def jsWhitespace (c : Char) : Bool :=
  c = ' ' || c = '\t' || c = '\n' || c = '\r' || c = Char.ofNat 11 || c = Char.ofNat 12

/-- Model of `String.prototype.trim`: remove leading and trailing whitespace. -/
def jsTrim (s : List Char) : List Char :=
  ((s.dropWhile jsWhitespace).reverse.dropWhile jsWhitespace).reverse

/-- Worker for `jsSplitWs`: accumulates the current token (reversed) and cuts
at every maximal whitespace run, exactly as `split(/\s+/)` does.  The `fuel`
argument only makes the recursion structural; every step strictly shortens
the character list, so `fuel` larger than the list length is never
exhausted. -/
def splitWsGo : ℕ → List Char → List Char → List (List Char)
  | 0, cur, _ => [cur.reverse]
  | _ + 1, cur, [] => [cur.reverse]
  | fuel + 1, cur, c :: rest =>
    if jsWhitespace c then
      cur.reverse :: splitWsGo fuel [] (rest.dropWhile jsWhitespace)
    else
      splitWsGo fuel (c :: cur) rest

/-- Model of `String.prototype.split(/\s+/)`.  On the empty string it returns
`[""]`, and a leading or trailing whitespace run contributes an empty token,
as in JavaScript (the source always applies it to a trimmed string). -/
def jsSplitWs (s : List Char) : List (List Char) :=
  splitWsGo (s.length + 1) [] s

/-- Model of `line.startsWith("#")`. -/
def startsWithHash : List Char → Bool
  | '#' :: _ => true
  | _ => false

/-- A JavaScript number as observed by the codec: `NaN`, a signed infinity
(`inf true` is negative), or an exact value.  The pipeline only constructs
numbers by parsing decimal text and only consumes them by printing, so an
exact rational carrier is faithful on every value the claims exercise. -/
inductive JSNum where
  | nan : JSNum
  | inf : Bool → JSNum
  | num : ℚ → JSNum
deriving DecidableEq

/-- ASCII decimal digit test. -/
def isDigit (c : Char) : Bool :=
  '0' ≤ c && c ≤ '9'

/-- Numeric value of an ASCII digit. -/
def digitVal (c : Char) : ℕ :=
  c.toNat - '0'.toNat

/-- Value of a digit string, most significant digit first. -/
def digitsToNat (ds : List Char) : ℕ :=
  ds.foldl (fun a c => 10 * a + digitVal c) 0

/-- Consume an optional sign; returns `true` for a minus sign. -/
def readSign : List Char → Bool × List Char
  | '-' :: rest => (true, rest)
  | '+' :: rest => (false, rest)
  | s => (false, s)

/-- Model of `parseInt(s, 10)`: skip leading whitespace, read an optional
sign and then the longest digit prefix; `NaN` when there is no digit, and any
trailing garbage is ignored. -/
def jsParseInt (s : List Char) : JSNum :=
  let s1 := s.dropWhile jsWhitespace
  let sg := readSign s1
  let ds := sg.2.takeWhile isDigit
  if ds = [] then JSNum.nan
  else JSNum.num (mkRat ((if sg.1 then -1 else 1) * (digitsToNat ds : ℤ)) 1)

/-- Model of `parseFloat(s)`: skip leading whitespace, read an optional sign,
then `Infinity` or the longest decimal-literal prefix
(`digits [. digits] [e [sign] digits]`); `NaN` when no mantissa digit is
found, and a malformed exponent part is ignored. -/
def jsParseFloat (s : List Char) : JSNum :=
  let s1 := s.dropWhile jsWhitespace
  let sg := readSign s1
  if List.isPrefixOf ['I', 'n', 'f', 'i', 'n', 'i', 't', 'y'] sg.2 then JSNum.inf sg.1
  else
    let ip := sg.2.takeWhile isDigit
    let s3 := sg.2.dropWhile isDigit
    let fr :=
      match s3 with
      | '.' :: rest => (rest.takeWhile isDigit, rest.dropWhile isDigit)
      | _ => ([], s3)
    if ip = [] && fr.1 = [] then JSNum.nan
    else
      let mant : ℕ := digitsToNat ip * 10 ^ fr.1.length + digitsToNat fr.1
      let e : ℤ :=
        match fr.2 with
        | c :: rest =>
          if c = 'e' || c = 'E' then
            let esg := readSign rest
            let ed := esg.2.takeWhile isDigit
            if ed = [] then 0
            else (if esg.1 then -1 else 1) * (digitsToNat ed : ℤ)
          else 0
        | [] => 0
      -- value = ± mant / 10^(fraction length) * 10^e, assembled as one
      -- reduced fraction so that every arithmetic step is on ℕ / ℤ
      JSNum.num (mkRat ((if sg.1 then -1 else 1) * (mant * 10 ^ e.toNat : ℕ))
                       (10 ^ fr.1.length * 10 ^ (-e).toNat))

/-- Structural worker for `natToDigits`; each step divides the argument by
ten, so `fuel` larger than the argument is never exhausted. -/
def natToDigitsGo : ℕ → ℕ → List Char
  | 0, _ => []
  | fuel + 1, n =>
    if n < 10 then [Nat.digitChar n]
    else natToDigitsGo fuel (n / 10) ++ [Nat.digitChar (n % 10)]

/-- Decimal digits of a natural number, most significant first. -/
def natToDigits (n : ℕ) : List Char :=
  natToDigitsGo (n + 1) n

/-- Structural worker for `factorCount`; each step divides the argument by
`p ≥ 2`, so `fuel` larger than the argument is never exhausted. -/
def factorCountGo (p : ℕ) : ℕ → ℕ → ℕ
  | 0, _ => 0
  | fuel + 1, n =>
    if 2 ≤ p ∧ 0 < n ∧ n % p = 0 then factorCountGo p fuel (n / p) + 1 else 0

/-- Multiplicity of the factor `p` in `n` (0 when `p < 2` or `n = 0`). -/
def factorCount (p : ℕ) (n : ℕ) : ℕ :=
  factorCountGo p (n + 1) n

/-- Structural worker for `stripTensFactor`. -/
def stripTensGo : ℕ → ℕ → ℕ
  | 0, n => n
  | fuel + 1, n =>
    if 0 < n ∧ n % 10 = 0 then stripTensGo fuel (n / 10) else n

/-- Remove every trailing decimal zero of a positive number. -/
def stripTensFactor (n : ℕ) : ℕ :=
  stripTensGo (n + 1) n

/-- JavaScript exponential number form `d.ddde±NN` for the positive value
whose significant digits are those of `d` and whose decimal exponent is `e`. -/
def expForm (d : ℕ) (e : ℤ) : List Char :=
  let m := natToDigits (stripTensFactor d)
  let mant :=
    match m with
    | [c] => [c]
    | c :: rest => c :: '.' :: rest
    | [] => ['0']
  mant ++ (if e < 0 then ['e', '-'] ++ natToDigits e.natAbs
           else ['e', '+'] ++ natToDigits e.natAbs)

/-- Rendering of the positive rational `n / d` (in lowest terms) following
JavaScript `Number.prototype.toString`: plain decimal form in the range
`[1e-6, 1e21)`, exponential form outside it.  A denominator that is not of
the form `2^a * 5^b` has no finite decimal expansion; it cannot be produced
by the codec's parsers and is rendered as a sentinel. -/
def renderPosQ (n d : ℕ) : List Char :=
  let a := factorCount 2 d
  let b := factorCount 5 d
  if d = 2 ^ a * 5 ^ b then
    let k := max a b
    let dd := n * 10 ^ k / d
    let ds := natToDigits dd
    let len := ds.length
    if 10 ^ (k + 21) ≤ dd then expForm dd ((len : ℤ) - 1 - (k : ℤ))
    else if 1000000 * dd < 10 ^ k then expForm dd ((len : ℤ) - 1 - (k : ℤ))
    else if k = 0 then ds
    else if k < len then ds.take (len - k) ++ '.' :: ds.drop (len - k)
    else '0' :: '.' :: (List.replicate (k - len) '0' ++ ds)
  else ['?']

/-- Model of the implicit `String(number)` conversion performed by
`Array.prototype.join`: `NaN` prints `"NaN"`, infinities print
`"±Infinity"`, `-0` and `0` print `"0"`. -/
def jsNumToString : JSNum → List Char
  | JSNum.nan => ['N', 'a', 'N']
  | JSNum.inf neg => if neg then '-' :: ['I', 'n', 'f', 'i', 'n', 'i', 't', 'y']
                     else ['I', 'n', 'f', 'i', 'n', 'i', 't', 'y']
  | JSNum.num q =>
    if q.num = 0 then ['0']
    else if q.num < 0 then '-' :: renderPosQ q.num.natAbs q.den
    else renderPosQ q.num.natAbs q.den

/-! ## Event Codec: `CosmicWatchDataService` -/

/-- The structured event produced by the codec, mirroring the
`CosmicWatchData` interface of `src/shared/types.ts` (optional fields are
`Option`s; the numeric fields carry the `JSNum` observed by JavaScript). -/
structure CosmicWatchData where
  event : JSNum
  date : Option (List Char)
  time : Option JSNum
  adc : JSNum
  sipm : JSNum
  deadtime : JSNum
  temp : JSNum
  hum : Option JSNum
  press : Option JSNum
  pcTimestamp : Option (List Char)
deriving DecidableEq

/-- Mirrors `private static readonly DEBUG = false` in
`CosmicWatchDataService`. -/
def DEBUG : Bool := false

/-- Mirrors the dead numeric-validation block of `parseRawData`
(lines 100-110 of `CosmicWatchDataService.ts`): the list of field names whose
value is `NaN` is computed, but the guard that consumes it has an empty body,
so the result never influences the returned value. -/
def validationIssues (d : CosmicWatchData) : List (List Char) :=
  (if d.event = JSNum.nan then [['e', 'v', 'e', 'n', 't']] else [])
  ++ (if d.time = some JSNum.nan then [['t', 'i', 'm', 'e']] else [])
  ++ (if d.adc = JSNum.nan then [['a', 'd', 'c']] else [])
  ++ (if d.sipm = JSNum.nan then [['s', 'i', 'p', 'm']] else [])
  ++ (if d.deadtime = JSNum.nan then [['d', 'e', 'a', 'd', 't', 'i', 'm', 'e']] else [])
  ++ (if d.temp = JSNum.nan then [['t', 'e', 'm', 'p']] else [])

/-- Model of `CosmicWatchDataService.parseRawData`.  `pcTs` is the value of
`getCurrentTimestampString()` (the host receipt time), passed explicitly.

Faithful to the source as written: the comment-line guard is
`if (line.startsWith("#")) { if (DEBUG) return null; }`, so with
`DEBUG = false` a `#` line is NOT rejected early; and the numeric-validation
block computes `validationIssues` but its `if` has an empty body, so a parsed
object is returned even when required fields are `NaN`.  Nothing in the body
can throw, so the `try/catch` wrapper adds no behaviour. -/
def parseRawData (pcTs : List Char) (line : List Char) : Option CosmicWatchData :=
  if startsWithHash line && DEBUG then none
  else
    let parts := jsSplitWs (jsTrim line)
    let parsed : Option CosmicWatchData :=
      match parts with
      | [p0, p1, p2, p3, p4, p5] =>
        -- 6 tokens: event time adc sipm deadtime temp (PC time substituted as date)
        some { event := jsParseInt p0, date := some pcTs, time := some (jsParseInt p1),
               adc := jsParseInt p2, sipm := jsParseFloat p3, deadtime := jsParseInt p4,
               temp := jsParseFloat p5, hum := none, press := none, pcTimestamp := none }
      | [p0, p1, p2, p3, p4, p5, p6] =>
        -- 7 tokens: event date totaltime adc sipm deadtime temp (device date kept)
        some { event := jsParseInt p0, date := some p1, time := some (jsParseInt p2),
               adc := jsParseInt p3, sipm := jsParseFloat p4, deadtime := jsParseInt p5,
               temp := jsParseFloat p6, hum := none, press := none, pcTimestamp := none }
      | [p0, p1, p2, p3, p4, p5, p6, p7, p8] =>
        -- 9 tokens: event date totaltime adc sipm deadtime temp hum press
        some { event := jsParseInt p0, date := some p1, time := some (jsParseInt p2),
               adc := jsParseInt p3, sipm := jsParseFloat p4, deadtime := jsParseInt p5,
               temp := jsParseFloat p6, hum := some (jsParseFloat p7),
               press := some (jsParseFloat p8), pcTimestamp := none }
      | _ => none
    match parsed with
    | some d =>
      let _ := validationIssues d
      some d
    | none => none

/-- Model of `Array.prototype.join("\t")`. -/
def tabJoin : List (List Char) → List Char
  | [] => []
  | [f] => f
  | f :: rest => f ++ '\t' :: tabJoin rest

/-- Model of `CosmicWatchDataService.formatDataForFile`: the field list is
assembled in fixed order; `date` is included only when present and truthy
(the empty string is falsy in JavaScript), `time`, `hum` and `press` only
when not `undefined`; numbers are converted by `String(_)` during `join`. -/
def formatDataForFile (data : CosmicWatchData) : List Char :=
  let fields : List (List Char) :=
    [jsNumToString data.event]
    ++ (match data.date with
        | some ds => if ds = [] then [] else [ds]
        | none => [])
    ++ (match data.time with
        | some t => [jsNumToString t]
        | none => [])
    ++ [jsNumToString data.adc, jsNumToString data.sipm,
        jsNumToString data.deadtime, jsNumToString data.temp]
    ++ (match data.hum with
        | some h => [jsNumToString h]
        | none => [])
    ++ (match data.press with
        | some p => [jsNumToString p]
        | none => [])
  tabJoin fields

/-! ## Redux `onlineData` slice (`onlineDataSlice` reducers and selectors)

The modelled state keeps the fields of `OnlineDataState` that the claims'
reducers and selectors read or write (`config`, `statistics`, `lastError`,
`retryCount` and `isConnecting` are never touched by the modelled actions'
queue logic and are omitted).  Sizes are modelled as naturals: every value
the slice itself ever assigns to them is a non-negative integer. -/

structure OnlineDataState where
  isEnabled : Bool
  isConnected : Bool
  queuedData : List CosmicWatchData
  maxQueueSize : ℕ
  batchSize : ℕ
  uploadInterval : ℕ
  pendingUploads : ℕ
  isUploading : Bool
deriving DecidableEq

/-- The slice's `initialState`. -/
def initialState : OnlineDataState :=
  { isEnabled := false, isConnected := false, queuedData := [],
    maxQueueSize := 1000, batchSize := 10, uploadInterval := 5000,
    pendingUploads := 0, isUploading := false }

/-- Model of `arr.slice(-m)` for a natural `m`: for `m > 0` it keeps the last
`min m arr.length` elements; for `m = 0` the argument is `-0 = 0`, so it is
`arr.slice(0)`, which keeps the WHOLE array. -/
def jsSliceNeg (l : List CosmicWatchData) (m : ℕ) : List CosmicWatchData :=
  if m = 0 then l else l.drop (l.length - m)

/-- Model of the `setEnabled` reducer: records the flag and, when disabling,
drops the connection and clears the queue. -/
def setEnabledReducer (st : OnlineDataState) (v : Bool) : OnlineDataState :=
  if v then { st with isEnabled := v }
  else { st with isEnabled := v, isConnected := false, queuedData := [] }

/-- Model of the `queueData` reducer: a no-op while the sink is disabled;
otherwise pushes the event and, when the queue now exceeds `maxQueueSize`,
trims it with `slice(-maxQueueSize)`. -/
def queueDataReducer (st : OnlineDataState) (d : CosmicWatchData) : OnlineDataState :=
  if !st.isEnabled then st
  else
    let q := st.queuedData ++ [d]
    if st.maxQueueSize < q.length then { st with queuedData := jsSliceNeg q st.maxQueueSize }
    else { st with queuedData := q }

/-- Payload of the `setBatchSettings` action (each field optional). -/
structure BatchSettingsPayload where
  batchSize : Option ℕ
  uploadInterval : Option ℕ
  maxQueueSize : Option ℕ

/-- Model of the `setBatchSettings` reducer: applies each provided field;
when `maxQueueSize` is provided and the queue now exceeds it, trims with
`slice(-maxQueueSize)`. -/
def setBatchSettingsReducer (st : OnlineDataState) (p : BatchSettingsPayload) :
    OnlineDataState :=
  let st1 := match p.batchSize with
    | some b => { st with batchSize := b }
    | none => st
  let st2 := match p.uploadInterval with
    | some u => { st1 with uploadInterval := u }
    | none => st1
  match p.maxQueueSize with
  | none => st2
  | some m =>
    let st3 := { st2 with maxQueueSize := m }
    if m < st3.queuedData.length then { st3 with queuedData := jsSliceNeg st3.queuedData m }
    else st3

/-- Model of the selector `selectOnlineDataBatch`:
`queuedData.slice(0, Math.min(batchSize, queuedData.length))`. -/
def selectOnlineDataBatch (st : OnlineDataState) : List CosmicWatchData :=
  st.queuedData.take (min st.batchSize st.queuedData.length)

/-- Model of the `uploadDataBatch.fulfilled` reducer restricted to the
modelled fields: decrements `pendingUploads` (clamped at 0, clearing
`isUploading` at 0) and cuts the queue with
`queuedData.slice(results.success + results.failed)`. -/
def uploadBatchFulfilled (st : OnlineDataState) (success failed : ℕ) : OnlineDataState :=
  let pending := st.pendingUploads - 1
  { st with pendingUploads := pending,
            isUploading := if pending = 0 then false else st.isUploading,
            queuedData := st.queuedData.drop (success + failed) }

/-! ## `OnlineDataService` -/

/-- `private readonly maxRetries: number = 3`. -/
def maxRetries : ℕ := 3

/-- `private readonly baseRetryDelay: number = 1000`. -/
def baseRetryDelay : ℚ := 1000

/-- Model of `exponentialBackoff`: the waited delay in milliseconds, with the
value of `Math.random() * 1000` passed explicitly as `jitter`
(`Math.random()` ranges over `[0, 1)`, so the jitter ranges over
`[0, 1000)`). -/
def backoffDelay (retryCount : ℕ) (jitter : ℚ) : ℚ :=
  baseRetryDelay * 2 ^ retryCount + jitter

/-- Accumulated observables of one `uploadDataBatch` run: the `results`
counters, the service's `retryCount`, and the `retryCount` values at which
`exponentialBackoff` was invoked. -/
structure BatchRun where
  success : ℕ
  failed : ℕ
  retryCount : ℕ
  backoffs : List ℕ
deriving DecidableEq

/-- Model of the `uploadDataBatch` loop.  Each entry of `outcomes` is the
boolean result of one `this.uploadData(data)` call (the per-event network
interaction is modelled separately by `uploadDataGo`).  On success the
counter increments and — inside `uploadData` — `this.retryCount` is reset
to 0.  On failure the `failed` counter increments; if `retryCount` has
reached `maxRetries` the batch is abandoned for this cycle (`break`),
otherwise the service backs off at the current `retryCount` and increments
it. -/
def uploadDataBatchGo : List Bool → BatchRun → BatchRun
  | [], acc => acc
  | outcome :: rest, acc =>
    if outcome then
      uploadDataBatchGo rest { acc with success := acc.success + 1, retryCount := 0 }
    else
      let acc1 := { acc with failed := acc.failed + 1 }
      if maxRetries ≤ acc1.retryCount then acc1
      else uploadDataBatchGo rest
        { acc1 with backoffs := acc1.backoffs ++ [acc1.retryCount],
                    retryCount := acc1.retryCount + 1 }

/-- Outcome of one `POST /upload-data` call. -/
inductive UploadResp where
  | ok : UploadResp
  | auth401 : UploadResp
  | errOther : UploadResp
deriving DecidableEq

/-- Combined outcome of one `handleTokenExpired` round: the refresh call and
its fallback re-login collapsed into the round's overall result. -/
inductive RefreshResp where
  | ok : RefreshResp
  | failLoginOk : RefreshResp
  | failLoginFail : RefreshResp
deriving DecidableEq

/-- One network interaction consumed by the service, supplied in order by an
oracle list. -/
inductive NetEv where
  | up : UploadResp → NetEv
  | refresh : RefreshResp → NetEv
  | login : Bool → NetEv
deriving DecidableEq

/-- The service-instance fields read by the upload path. -/
structure SvcState where
  authToken : Bool
  isConnected : Bool
  retryCount : ℕ
deriving DecidableEq

/-- Model of `handleTokenExpired`: consumes one oracle event; on refresh
success the token is replaced; on refresh failure the fallback `login()`
either succeeds (token set, connected, retry counter reset) or fails.  An
oracle that is exhausted or answers with a non-refresh event is read as a
network failure. -/
def handleTokenExpired (st : SvcState) : List NetEv → Bool × SvcState × List NetEv
  | NetEv.refresh RefreshResp.ok :: rest =>
    (true, { st with authToken := true }, rest)
  | NetEv.refresh RefreshResp.failLoginOk :: rest =>
    (true, { st with authToken := true, isConnected := true, retryCount := 0 }, rest)
  | NetEv.refresh RefreshResp.failLoginFail :: rest =>
    (false, { st with isConnected := false }, rest)
  | evs => (false, st, evs)

/-- Model of `uploadData` for a single event.  Returns the boolean result,
the number of refresh-and-retry rounds performed (`handleTokenExpired`
invocations), the final service state and the unconsumed oracle.

The 401 branch mirrors
`return await this.handleTokenExpired() && await this.uploadData(data)`:
a successful refresh RECURSIVELY re-attempts the same event.  `fuel` only
makes that recursion structural; each round consumes at least one oracle
event, so `fuel` larger than the oracle length is never exhausted
(exhaustion is read as a network failure). -/
def uploadDataGo : ℕ → SvcState → List NetEv → Bool × ℕ × SvcState × List NetEv
  | 0, st, evs => (false, 0, st, evs)
  | fuel + 1, st, evs =>
    -- `if (!this.authToken)` re-authentication attempt
    let pre : SvcState × List NetEv × Bool :=
      if st.authToken then (st, evs, true)
      else
        match evs with
        | NetEv.login true :: rest =>
          ({ st with authToken := true, isConnected := true, retryCount := 0 }, rest, true)
        | NetEv.login false :: rest =>
          ({ st with isConnected := false }, rest, false)
        | rest => (st, rest, false)
    if !pre.2.2 then (false, 0, pre.1, pre.2.1)
    else
      match pre.2.1 with
      | NetEv.up UploadResp.ok :: rest =>
        (true, 0, { pre.1 with retryCount := 0 }, rest)
      | NetEv.up UploadResp.auth401 :: rest =>
        let hr := handleTokenExpired pre.1 rest
        if hr.1 then
          let rec' := uploadDataGo fuel hr.2.1 hr.2.2
          (rec'.1, rec'.2.1 + 1, rec'.2.2)
        else (false, 1, hr.2)
      | NetEv.up UploadResp.errOther :: rest => (false, 0, pre.1, rest)
      | rest => (false, 0, pre.1, rest)

/-- Oracle on which every upload attempt is rejected with 401 and every token
refresh succeeds, for `n` rounds, after which the upload succeeds. -/
def authRounds : ℕ → List NetEv
  | 0 => [NetEv.up UploadResp.ok]
  | n + 1 => NetEv.up UploadResp.auth401 :: NetEv.refresh RefreshResp.ok :: authRounds n

/-! ## Auto-save hooks (`useAutoSave` / `useServerAutoSave`)

Both hooks keep a `useRef` holding the `includeComments` value captured when
the session's file is created (`initialIncludeCommentsRef`), and the append
effect reads that ref — not the live `includeComments` prop, which is in the
effect's dependency list but unused by the decision. -/

structure AutoSaveState where
  isFileCreated : Bool
  initialIncludeComments : Option Bool
deriving DecidableEq

/-- Model of the session-creation effect: runs only while no file exists for
the session, and stores the live `includeComments` value in
`initialIncludeCommentsRef`. -/
def createAndWrite (st : AutoSaveState) (includeComments : Bool) : AutoSaveState :=
  if st.isFileCreated then st
  else { isFileCreated := true, initialIncludeComments := some includeComments }

/-- Model of the append effect's decision for one received line: whether the
line is written.  The guard requires a created file and a captured setting;
a captured `false` drops lines whose trimmed form starts with `#`.  The
`includeComments` argument is the CURRENT live preference — present in the
effect's closure and dependency list, but never read by the decision. -/
def appendWrites (st : AutoSaveState) (includeComments : Bool) (latestRawData : List Char) :
    Bool :=
  if !st.isFileCreated then false
  else
    match st.initialIncludeComments with
    | none => false
    | some captured =>
      if startsWithHash (jsTrim latestRawData) && !captured then false else true

/-- The write decisions of a whole recording session: one entry per received
line, each paired with the live preference at that moment. -/
def sessionWrites (st : AutoSaveState) (steps : List (Bool × List Char)) : List Bool :=
  steps.map (fun s => appendWrites st s.1 s.2)

/-! ## Concrete values used by the claim instances -/

/-- A minimal concrete event used to populate queues in counterexamples. -/
def sampleEvent : CosmicWatchData :=
  { event := JSNum.num 1, date := none, time := none, adc := JSNum.num 0,
    sipm := JSNum.num 0, deadtime := JSNum.num 0, temp := JSNum.num 0,
    hum := none, press := none, pcTimestamp := none }

/-- A concrete host receipt timestamp, in the shape produced by
`getCurrentTimestampString`. -/
def samplePcTs : List Char := "2025-01-02-03-04-05.678".data

/-- A comment line that also has six whitespace-separated tokens. -/
def c2line : List Char := "# 1 2 3 4 5".data

/-- The 9-token line of the end-to-end scenario. -/
def c8line : List Char :=
  "42 2025-06-18-14-30-25.123 1500 512 3.3 100 21.5 45.0 1012.3".data

/-- The event actually produced by `parseRawData` on `c8line`. -/
def c8event : CosmicWatchData :=
  { event := JSNum.num 42, date := some "2025-06-18-14-30-25.123".data,
    time := some (JSNum.num 1500), adc := JSNum.num 512,
    sipm := JSNum.num (mkRat 33 10), deadtime := JSNum.num 100,
    temp := JSNum.num (mkRat 43 2), hum := some (JSNum.num 45),
    press := some (JSNum.num (mkRat 10123 10)), pcTimestamp := none }

/-- A 6-token line with canonical numeric tokens. -/
def c5line6 : List Char := "1 2 3 4 5 6".data

/-- An enabled state holding one queued event. -/
def c1state : OnlineDataState :=
  { initialState with isEnabled := true, queuedData := [sampleEvent] }

/-! ## Claim theorems -/

/-- Claim C2 (evidence of the code bug): on the comment line `"# 1 2 3 4 5"`
the code's `parseRawData` does NOT return the Rejected result: the
`if (DEBUG)` guard swallows the `return null`, the line splits into six
tokens, and a structured event whose `event` field is `NaN` is returned —
against the claim, the function's own inline comment, and the spec's
invariant that no partially-valid event is ever returned as structured
data. -/
theorem claim_c2_bug_eval :
    (parseRawData samplePcTs c2line).map CosmicWatchData.event = some JSNum.nan := by
  decide

/-- Claim C8, counterexample to the claim as stated: on the 9-token
end-to-end line, `format` does NOT reproduce the same tab-separated token
sequence — the humidity token `45.0` is re-rendered as `45` by JavaScript
number-to-string conversion. -/
theorem claim_c8_counterexample :
    (parseRawData samplePcTs c8line).map formatDataForFile ≠
      some (tabJoin (jsSplitWs (jsTrim c8line))) := by
  decide

/-- Claim C8 as amended: feeding the 9-token line through the codec yields an
event with `event = 42`, `adc = 512`, `sipm = 3.3`, `deadtime = 100`,
`temp = 21.5`, `hum = 45.0`, `press = 1012.3`, whose `date` field is the
device date token preserved verbatim (for every host receipt time), and
`format` reproduces the tab-separated token sequence except that the
humidity token `45.0` is rendered in canonical form `45`. -/
theorem claim_c8_amended :
    (∀ pcTs : List Char, parseRawData pcTs c8line = some c8event) ∧
    c8event.date = some "2025-06-18-14-30-25.123".data ∧
    formatDataForFile c8event =
      "42\t2025-06-18-14-30-25.123\t1500\t512\t3.3\t100\t21.5\t45\t1012.3".data := by
  refine ⟨fun pcTs => ?_, by decide, by decide⟩
  rfl

/-- Helper for the batch-cycle claims: the `uploadDataBatch` loop attempts at
most one upload per batch member, so `success + failed` grows by at most the
number of outcomes. -/
theorem uploadDataBatchGo_attempted_le (outcomes : List Bool) :
    ∀ acc : BatchRun,
      (uploadDataBatchGo outcomes acc).success + (uploadDataBatchGo outcomes acc).failed ≤
        acc.success + acc.failed + outcomes.length := by
  induction outcomes with
  | nil => intro acc; simp [uploadDataBatchGo]
  | cons o rest ih =>
    intro acc
    cases o with
    | true =>
      have hgo : uploadDataBatchGo (true :: rest) acc =
          uploadDataBatchGo rest { acc with success := acc.success + 1, retryCount := 0 } := by
        simp [uploadDataBatchGo]
      rw [hgo]
      have h := ih { acc with success := acc.success + 1, retryCount := 0 }
      simp only [List.length_cons] at h ⊢
      omega
    | false =>
      by_cases hb : maxRetries ≤ acc.retryCount
      · have hgo : uploadDataBatchGo (false :: rest) acc =
            { acc with failed := acc.failed + 1 } := by
          simp [uploadDataBatchGo, hb]
        rw [hgo]
        simp only [List.length_cons]
        omega
      · have hgo : uploadDataBatchGo (false :: rest) acc =
            uploadDataBatchGo rest
              { acc with failed := acc.failed + 1,
                         backoffs := acc.backoffs ++ [acc.retryCount],
                         retryCount := acc.retryCount + 1 } := by
          simp [uploadDataBatchGo, hb]
        rw [hgo]
        have h := ih ({ acc with failed := acc.failed + 1, backoffs := acc.backoffs ++ [acc.retryCount], retryCount := acc.retryCount + 1 })
        simp only [List.length_cons] at h ⊢
        omega

/-- Claim C1, counterexample to the claim as stated: with one queued event
and a batch whose single upload fails (`success = 0`, `failed = 1`), the
`uploadDataBatch.fulfilled` reducer leaves a queue of length 0, not the
claimed `count − success = 1`: the failed event is removed from the queue. -/
theorem claim_c1_counterexample :
    (uploadBatchFulfilled c1state
        (uploadDataBatchGo [false] ⟨0, 0, 0, []⟩).success
        (uploadDataBatchGo [false] ⟨0, 0, 0, []⟩).failed).queuedData.length ≠
      c1state.queuedData.length - (uploadDataBatchGo [false] ⟨0, 0, 0, []⟩).success := by
  decide

/-- Claim C1 as amended: after a batch upload cycle the
`uploadDataBatch.fulfilled` reducer removes the first `success + failed`
entries from the queue — events whose uploads failed are removed together
with the successes, and only members beyond the attempted prefix (those
skipped when the loop breaks at the retry ceiling, and events queued after
the batch was taken) remain; the queue count afterwards is the old count
minus `success + failed`, not minus `success` alone.  The loop attempts at
most `outcomes.length` events. -/
theorem claim_c1_amended :
    ∀ (st : OnlineDataState) (outcomes : List Bool) (r0 : ℕ),
      (uploadDataBatchGo outcomes ⟨0, 0, r0, []⟩).success +
          (uploadDataBatchGo outcomes ⟨0, 0, r0, []⟩).failed ≤ outcomes.length ∧
      (uploadBatchFulfilled st (uploadDataBatchGo outcomes ⟨0, 0, r0, []⟩).success
          (uploadDataBatchGo outcomes ⟨0, 0, r0, []⟩).failed).queuedData =
        st.queuedData.drop ((uploadDataBatchGo outcomes ⟨0, 0, r0, []⟩).success +
          (uploadDataBatchGo outcomes ⟨0, 0, r0, []⟩).failed) ∧
      (uploadBatchFulfilled st (uploadDataBatchGo outcomes ⟨0, 0, r0, []⟩).success
          (uploadDataBatchGo outcomes ⟨0, 0, r0, []⟩).failed).queuedData.length =
        st.queuedData.length - ((uploadDataBatchGo outcomes ⟨0, 0, r0, []⟩).success +
          (uploadDataBatchGo outcomes ⟨0, 0, r0, []⟩).failed) := by
  intro st outcomes r0
  refine ⟨?_, rfl, ?_⟩
  · simpa using uploadDataBatchGo_attempted_le outcomes ⟨0, 0, r0, []⟩
  · simp [uploadBatchFulfilled]

/-- Claim C10: dispatching `setEnabled(false)` empties the upload queue and
marks the sink disconnected, for every state; and while the sink is
disabled, `queueData` leaves the state unchanged (the event is silently
dropped) — disabling is indeed a loss path beyond capacity overflow. -/
theorem claim_c10_confirmed :
    (∀ st : OnlineDataState,
      (setEnabledReducer st false).queuedData = [] ∧
      (setEnabledReducer st false).isConnected = false) ∧
    (∀ (st : OnlineDataState) (d : CosmicWatchData),
      st.isEnabled = false → queueDataReducer st d = st) := by
  refine ⟨fun st => ⟨rfl, rfl⟩, fun st d h => ?_⟩
  simp [queueDataReducer, h]

/-- Claim C10, witness: the initial state is disabled, and queueing an event
onto it changes nothing. -/
theorem claim_c10_witness :
    initialState.isEnabled = false ∧
    queueDataReducer initialState sampleEvent = initialState :=
  ⟨rfl, claim_c10_confirmed.2 initialState sampleEvent rfl⟩

/-- The slice's state right after enabling the sink. -/
def enabledState : OnlineDataState :=
  { initialState with isEnabled := true }

/-- An enabled, connected state whose queue (2 events) exceeds the configured
batch size (1). -/
def c3state : OnlineDataState :=
  { initialState with isEnabled := true, isConnected := true, batchSize := 1, queuedData := [sampleEvent, sampleEvent] }

/-- An enabled state whose `maxQueueSize` has been set to 0 through the
`setBatchSettings` reducer. -/
def c6state : OnlineDataState :=
  setBatchSettingsReducer (setEnabledReducer initialState true) ⟨none, none, some 0⟩

/-- Claim C6, counterexample to the claim as stated: `maxQueueSize = 0` is
accepted unvalidated by `setBatchSettings`, and then an enqueue leaves the
queue at length 1 > 0, because the trim `queuedData.slice(-maxQueueSize)`
is `slice(-0) = slice(0)` and keeps the whole array. -/
theorem claim_c6_counterexample :
    ¬ ((queueDataReducer c6state sampleEvent).queuedData.length ≤
        (queueDataReducer c6state sampleEvent).maxQueueSize) := by
  decide

/-- Claim C6 as amended: provided `maxQueueSize ≥ 1`, the queue is bounded —
after an enqueue the queue is the newest-keeping suffix
`(queued ++ [event]).drop (length + 1 − maxQueueSize)` and its length never
exceeds `maxQueueSize`; and lowering `maxQueueSize` to `m ≥ 1` via
`setBatchSettings` keeps the newest-keeping suffix `drop (length − m)` of
the queue, bounded by `m`.  (With `maxQueueSize = 0` the bound fails: the
trim `slice(-0)` keeps the whole array.) -/
theorem claim_c6_amended :
    (∀ (st : OnlineDataState) (d : CosmicWatchData),
      st.isEnabled = true → 1 ≤ st.maxQueueSize →
      (queueDataReducer st d).queuedData =
        (st.queuedData ++ [d]).drop (st.queuedData.length + 1 - st.maxQueueSize) ∧
      (queueDataReducer st d).queuedData.length ≤ st.maxQueueSize) ∧
    (∀ (st : OnlineDataState) (pb pu : Option ℕ) (m : ℕ),
      1 ≤ m →
      (setBatchSettingsReducer st ⟨pb, pu, some m⟩).queuedData =
        st.queuedData.drop (st.queuedData.length - m) ∧
      (setBatchSettingsReducer st ⟨pb, pu, some m⟩).queuedData.length ≤ m ∧
      (setBatchSettingsReducer st ⟨pb, pu, some m⟩).maxQueueSize = m) := by
  constructor
  · intro st d hE hM
    have hq : queueDataReducer st d =
        (if st.maxQueueSize < (st.queuedData ++ [d]).length
         then { st with queuedData := jsSliceNeg (st.queuedData ++ [d]) st.maxQueueSize }
         else { st with queuedData := st.queuedData ++ [d] }) := by
      simp [queueDataReducer, hE]
    by_cases hlt : st.maxQueueSize < (st.queuedData ++ [d]).length
    · rw [hq, if_pos hlt]
      simp only [List.length_append, List.length_cons, List.length_nil] at hlt
      constructor
      · show jsSliceNeg (st.queuedData ++ [d]) st.maxQueueSize = _
        unfold jsSliceNeg
        rw [if_neg (by omega)]
        simp [List.length_append]
      · show (jsSliceNeg (st.queuedData ++ [d]) st.maxQueueSize).length ≤ _
        unfold jsSliceNeg
        rw [if_neg (by omega)]
        simp only [List.length_drop, List.length_append, List.length_cons, List.length_nil]
        omega
    · rw [hq, if_neg hlt]
      simp only [List.length_append, List.length_cons, List.length_nil] at hlt
      constructor
      · show st.queuedData ++ [d] = _
        have h0 : st.queuedData.length + 1 - st.maxQueueSize = 0 := by omega
        rw [h0, List.drop_zero]
      · show (st.queuedData ++ [d]).length ≤ _
        simp only [List.length_append, List.length_cons, List.length_nil]
        omega
  · intro st pb pu m hM
    have hred : setBatchSettingsReducer st ⟨pb, pu, some m⟩ =
        (if m < st.queuedData.length
         then { st with batchSize := (pb.getD st.batchSize), uploadInterval := (pu.getD st.uploadInterval), maxQueueSize := m, queuedData := jsSliceNeg st.queuedData m }
         else { st with batchSize := (pb.getD st.batchSize), uploadInterval := (pu.getD st.uploadInterval), maxQueueSize := m }) := by
      cases pb <;> cases pu <;> simp [setBatchSettingsReducer, Option.getD]
    by_cases hlt : m < st.queuedData.length
    · rw [hred, if_pos hlt]
      refine ⟨?_, ?_, rfl⟩
      · show jsSliceNeg st.queuedData m = _
        unfold jsSliceNeg
        rw [if_neg (by omega)]
      · show (jsSliceNeg st.queuedData m).length ≤ m
        unfold jsSliceNeg
        rw [if_neg (by omega)]
        simp only [List.length_drop]
        omega
    · rw [hred, if_neg hlt]
      refine ⟨?_, ?_, rfl⟩
      · show st.queuedData = _
        have h0 : st.queuedData.length - m = 0 := by omega
        rw [h0, List.drop_zero]
      · show st.queuedData.length ≤ m
        omega

/-- Claim C6, witness: enqueuing onto the freshly enabled state (capacity
1000) keeps the newest-suffix shape and respects the bound. -/
theorem claim_c6_witness :
    enabledState.isEnabled = true ∧ 1 ≤ enabledState.maxQueueSize ∧
    (queueDataReducer enabledState sampleEvent).queuedData =
      (enabledState.queuedData ++ [sampleEvent]).drop
        (enabledState.queuedData.length + 1 - enabledState.maxQueueSize) ∧
    (queueDataReducer enabledState sampleEvent).queuedData.length ≤
      enabledState.maxQueueSize :=
  ⟨rfl, by decide, (claim_c6_amended.1 enabledState sampleEvent rfl (by decide)).1,
    (claim_c6_amended.1 enabledState sampleEvent rfl (by decide)).2⟩

/-- Helper for Claim C3: while the sink is enabled and the capacity is not
hit, folding `queueData` over a list of accepted events appends them all to
the queue in order. -/
theorem enqueueAll_queue (es : List CosmicWatchData) :
    ∀ st : OnlineDataState, st.isEnabled = true →
      st.queuedData.length + es.length ≤ st.maxQueueSize →
      (es.foldl queueDataReducer st).queuedData = st.queuedData ++ es := by
  induction es with
  | nil => intro st _ _; simp
  | cons e rest ih =>
    intro st hE hlen
    simp only [List.foldl_cons]
    have hstep : queueDataReducer st e = { st with queuedData := st.queuedData ++ [e] } := by
      unfold queueDataReducer
      rw [hE]
      simp only [Bool.not_true, Bool.false_eq_true, if_false]
      rw [if_neg (by simp only [List.length_append, List.length_cons, List.length_nil]; simp only [List.length_cons] at hlen; omega)]
    rw [hstep]
    have hrec := ih { st with queuedData := st.queuedData ++ [e] } hE
      (by simp only [List.length_append, List.length_cons, List.length_nil]; simp only [List.length_cons] at hlen; omega)
    rw [hrec, List.append_assoc]
    rfl

/-- Claim C3 as amended: with the sink enabled and disconnected, N accepted
events starting from an empty queue produce a queue holding exactly those N
events (when N is within capacity); but on the reconnect edge the resync
pass (`syncOfflineData`) uploads only the single batch
`selectOnlineDataBatch = queuedData.take batchSize` — the whole backlog only
when `N ≤ batchSize`; the remaining events wait for later timer-driven
batch cycles. -/
theorem claim_c3_amended :
    (∀ (st : OnlineDataState) (es : List CosmicWatchData),
      st.isEnabled = true → st.isConnected = false → st.queuedData = [] →
      es.length ≤ st.maxQueueSize →
      (es.foldl queueDataReducer st).queuedData = es) ∧
    (∀ st : OnlineDataState, selectOnlineDataBatch st = st.queuedData.take st.batchSize) ∧
    (∀ st : OnlineDataState, st.queuedData.length ≤ st.batchSize →
      selectOnlineDataBatch st = st.queuedData) := by
  refine ⟨fun st es hE _ hq hlen => ?_, fun st => ?_, fun st h => ?_⟩
  · have h := enqueueAll_queue es st hE (by rw [hq]; simpa using hlen)
    rw [h, hq, List.nil_append]
  · unfold selectOnlineDataBatch
    rcases Nat.le_total st.batchSize st.queuedData.length with h | h
    · rw [Nat.min_eq_left h]
    · rw [Nat.min_eq_right h, List.take_length, List.take_of_length_le h]
  · unfold selectOnlineDataBatch
    rw [Nat.min_eq_right h, List.take_length]

/-- Claim C3, counterexample to the claim as stated: two events are queued
while offline, the batch size is 1, so the resync pass's batch
(`selectOnlineDataBatch`) holds only the first queued event — it is not the
whole backlog, hence not all N events are uploaded by the resync pass. -/
theorem claim_c3_counterexample :
    selectOnlineDataBatch c3state ≠ c3state.queuedData := by
  decide

/-- Claim C3, witness: two events accepted on the enabled, disconnected,
empty-queue state produce a queue of exactly those two events. -/
theorem claim_c3_witness :
    enabledState.isEnabled = true ∧ enabledState.isConnected = false ∧
    enabledState.queuedData = [] ∧
    ([sampleEvent, sampleEvent] : List CosmicWatchData).length ≤ enabledState.maxQueueSize ∧
    ([sampleEvent, sampleEvent].foldl queueDataReducer enabledState).queuedData =
      [sampleEvent, sampleEvent] :=
  ⟨rfl, rfl, rfl, by decide,
    claim_c3_amended.1 enabledState [sampleEvent, sampleEvent] rfl rfl rfl (by decide)⟩

/-- Helper for Claim C9: `uploadDataBatch` preserves the retry ceiling — if
the service's `retryCount` starts at most `maxRetries` it stays there, and
every `retryCount` value at which `exponentialBackoff` is invoked during the
run is strictly below `maxRetries`. -/
theorem uploadDataBatchGo_retry_bound (outcomes : List Bool) :
    ∀ acc : BatchRun, acc.retryCount ≤ maxRetries →
      (uploadDataBatchGo outcomes acc).retryCount ≤ maxRetries ∧
      (∀ k ∈ (uploadDataBatchGo outcomes acc).backoffs, k < maxRetries ∨ k ∈ acc.backoffs) := by
  induction outcomes with
  | nil => intro acc h; exact ⟨h, fun k hk => Or.inr hk⟩
  | cons o rest ih =>
    intro acc h
    cases o with
    | true =>
      have hgo : uploadDataBatchGo (true :: rest) acc =
          uploadDataBatchGo rest { acc with success := acc.success + 1, retryCount := 0 } := by
        simp [uploadDataBatchGo]
      rw [hgo]
      exact ih _ (Nat.zero_le _)
    | false =>
      by_cases hb : maxRetries ≤ acc.retryCount
      · have hgo : uploadDataBatchGo (false :: rest) acc =
            { acc with failed := acc.failed + 1 } := by
          simp [uploadDataBatchGo, hb]
        rw [hgo]
        exact ⟨h, fun k hk => Or.inr hk⟩
      · have hgo : uploadDataBatchGo (false :: rest) acc =
            uploadDataBatchGo rest
              ({ acc with failed := acc.failed + 1, backoffs := acc.backoffs ++ [acc.retryCount], retryCount := acc.retryCount + 1 }) := by
          simp [uploadDataBatchGo, hb]
        rw [hgo]
        have h2 := ih ({ acc with failed := acc.failed + 1, backoffs := acc.backoffs ++ [acc.retryCount], retryCount := acc.retryCount + 1 }) (by show acc.retryCount + 1 ≤ maxRetries; omega)
        refine ⟨h2.1, fun k hk => ?_⟩
        rcases h2.2 k hk with h3 | h3
        · exact Or.inl h3
        · rcases List.mem_append.mp h3 with h4 | h4
          · exact Or.inr h4
          · have h5 : k = acc.retryCount := by simpa using h4
            exact Or.inl (by omega)

/-- Claim C9: the backoff delay before retry attempt `k` is
`base * 2^k + jitter` with `base = 1000`; it is non-decreasing in `k`
whatever jitters in `[0, 1000)` are drawn; for `k` within the retry ceiling
`maxRetries = 3` it is bounded above (by 9000 ms); and the batch loop keeps
`retryCount ≤ maxRetries`, invoking the backoff only at retry counts
strictly below the ceiling. -/
theorem claim_c9_confirmed :
    (∀ (k : ℕ) (j : ℚ), backoffDelay k j = baseRetryDelay * 2 ^ k + j) ∧
    (∀ (k k' : ℕ) (j j' : ℚ), k < k' → 0 ≤ j' → j < 1000 →
      backoffDelay k j ≤ backoffDelay k' j') ∧
    (∀ (k : ℕ) (j : ℚ), k ≤ maxRetries → j < 1000 → backoffDelay k j < 9000) ∧
    (∀ (outcomes : List Bool) (r0 : ℕ), r0 ≤ maxRetries →
      (uploadDataBatchGo outcomes ⟨0, 0, r0, []⟩).retryCount ≤ maxRetries ∧
      ∀ k ∈ (uploadDataBatchGo outcomes ⟨0, 0, r0, []⟩).backoffs, k < maxRetries) := by
  refine ⟨fun k j => rfl, fun k k' j j' hk hj' hj => ?_, fun k j hk hj => ?_, fun outcomes r0 h0 => ?_⟩
  · unfold backoffDelay baseRetryDelay
    have h1 : (2 : ℚ) ^ (k + 1) ≤ 2 ^ k' := pow_le_pow_right₀ one_le_two hk
    have h2 : (1 : ℚ) ≤ 2 ^ k := one_le_pow₀ one_le_two
    rw [pow_succ] at h1
    nlinarith
  · unfold backoffDelay baseRetryDelay
    have h1 : (2 : ℚ) ^ k ≤ 2 ^ maxRetries := pow_le_pow_right₀ one_le_two hk
    unfold maxRetries at h1
    norm_num at h1
    nlinarith
  · have h := uploadDataBatchGo_retry_bound outcomes ⟨0, 0, r0, []⟩ h0
    refine ⟨h.1, fun k hk => ?_⟩
    rcases h.2 k hk with h3 | h3
    · exact h3
    · exact absurd h3 (List.not_mem_nil k)

/-- Claim C9, witness: concrete instances — the delay at retry count 1 with
zero jitter is at most the delay at retry count 2 with jitter 500; the delay
at the ceiling with jitter 999 stays below 9000; and a run of two failures
from retry count 1 keeps the counter within the ceiling. -/
theorem claim_c9_witness :
    (1 < 2 ∧ (0 : ℚ) ≤ 500 ∧ (0 : ℚ) < 1000 ∧
      backoffDelay 1 0 ≤ backoffDelay 2 500) ∧
    (3 ≤ maxRetries ∧ (999 : ℚ) < 1000 ∧ backoffDelay 3 999 < 9000) ∧
    (1 ≤ maxRetries ∧
      (uploadDataBatchGo [false, false] ⟨0, 0, 1, []⟩).retryCount ≤ maxRetries) :=
  ⟨⟨by norm_num, by norm_num, by norm_num,
      claim_c9_confirmed.2.1 1 2 0 500 (by norm_num) (by norm_num) (by norm_num)⟩,
   ⟨by decide, by norm_num, claim_c9_confirmed.2.2.1 3 999 (by decide) (by norm_num)⟩,
   ⟨by decide, (claim_c9_confirmed.2.2.2 [false, false] 1 (by decide)).1⟩⟩

/-- Claim C7: the `includeComments` value is captured into
`initialIncludeCommentsRef` once when the session's file is created, and
every later append decision uses that captured value — two whole sessions
fed the same lines but arbitrarily different live-preference values make
identical write decisions. -/
theorem claim_c7_confirmed :
    ∀ (st0 : AutoSaveState) (c : Bool) (steps steps' : List (Bool × List Char)),
      st0.isFileCreated = false →
      steps.map Prod.snd = steps'.map Prod.snd →
      (createAndWrite st0 c).initialIncludeComments = some c ∧
      sessionWrites (createAndWrite st0 c) steps =
        sessionWrites (createAndWrite st0 c) steps' := by
  intro st0 c steps steps' h0 hlines
  have hcs : createAndWrite st0 c = ⟨true, some c⟩ := by
    unfold createAndWrite
    rw [h0]
    simp
  refine ⟨by rw [hcs], ?_⟩
  have hdec : ∀ (live : Bool) (line : List Char),
      appendWrites ⟨true, some c⟩ live line =
        (if startsWithHash (jsTrim line) && !c then false else true) := by
    intro live line
    rfl
  rw [hcs]
  unfold sessionWrites
  calc steps.map (fun s => appendWrites ⟨true, some c⟩ s.1 s.2)
      = (steps.map Prod.snd).map
          (fun line => if startsWithHash (jsTrim line) && !c then false else true) := by
        rw [List.map_map]
        exact List.map_congr_left (fun s _ => hdec s.1 s.2)
    _ = (steps'.map Prod.snd).map
          (fun line => if startsWithHash (jsTrim line) && !c then false else true) := by
        rw [hlines]
    _ = steps'.map (fun s => appendWrites ⟨true, some c⟩ s.1 s.2) := by
        rw [List.map_map]
        exact (List.map_congr_left (fun s _ => hdec s.1 s.2)).symm

/-- Claim C7, witness: a session started with the preference off keeps
dropping the comment line `"# note"` even after the live preference is
flipped on. -/
theorem claim_c7_witness :
    (⟨false, none⟩ : AutoSaveState).isFileCreated = false ∧
    ([(true, "# note".data)].map Prod.snd = [(false, "# note".data)].map Prod.snd) ∧
    (createAndWrite ⟨false, none⟩ false).initialIncludeComments = some false ∧
    sessionWrites (createAndWrite ⟨false, none⟩ false) [(true, "# note".data)] =
      sessionWrites (createAndWrite ⟨false, none⟩ false) [(false, "# note".data)] :=
  ⟨rfl, by decide,
    (claim_c7_confirmed ⟨false, none⟩ false [(true, "# note".data)]
      [(false, "# note".data)] rfl (by decide)).1,
    (claim_c7_confirmed ⟨false, none⟩ false [(true, "# note".data)]
      [(false, "# note".data)] rfl (by decide)).2⟩

/-- Claim C4, counterexample to the claim as stated: against the bound of
one refresh-and-retry round per event per cycle, a single `uploadData` call
served two 401 responses (each refresh succeeding) performs 2 refresh
rounds. -/
theorem claim_c4_counterexample :
    ¬ ((uploadDataGo 3 ⟨true, true, 0⟩ (authRounds 2)).2.1 ≤ 1) := by
  decide

/-- Claim C4 as amended: on an HTTP-auth-class (401) rejection `uploadData`
refreshes the token and, when the refresh succeeds, RECURSIVELY re-attempts
the same event; the refresh-and-retry rounds per event are unbounded rather
than capped at one — for every `n`, an oracle answering `n` consecutive
401s (each refresh succeeding) before accepting the upload makes a single
`uploadData` call perform exactly `n` refresh rounds and finally succeed. -/
theorem claim_c4_amended :
    ∀ (n : ℕ) (c : Bool) (r : ℕ),
      uploadDataGo (n + 1) ⟨true, c, r⟩ (authRounds n) = (true, n, ⟨true, c, 0⟩, []) := by
  intro n
  induction n with
  | zero => intro c r; rfl
  | succ n ih =>
    intro c r
    have hstep : uploadDataGo (n + 1 + 1) ⟨true, c, r⟩ (authRounds (n + 1)) =
        ((uploadDataGo (n + 1) ⟨true, c, r⟩ (authRounds n)).1,
         (uploadDataGo (n + 1) ⟨true, c, r⟩ (authRounds n)).2.1 + 1,
         (uploadDataGo (n + 1) ⟨true, c, r⟩ (authRounds n)).2.2) := rfl
    rw [hstep, ih]

/-- Computation of `parseRawData` on a line whose trimmed form splits into
six tokens: the host receipt time is substituted as the `date` field. -/
theorem parseRawData_six (pcTs line t0 t1 t2 t3 t4 t5 : List Char)
    (h : jsSplitWs (jsTrim line) = [t0, t1, t2, t3, t4, t5]) :
    parseRawData pcTs line =
      some { event := jsParseInt t0, date := some pcTs, time := some (jsParseInt t1),
             adc := jsParseInt t2, sipm := jsParseFloat t3, deadtime := jsParseInt t4,
             temp := jsParseFloat t5, hum := none, press := none, pcTimestamp := none } := by
  unfold parseRawData
  rw [if_neg (by simp [DEBUG]), h]

/-- Computation of `parseRawData` on a line whose trimmed form splits into
seven tokens: the device's own date token is kept. -/
theorem parseRawData_seven (pcTs line t0 t1 t2 t3 t4 t5 t6 : List Char)
    (h : jsSplitWs (jsTrim line) = [t0, t1, t2, t3, t4, t5, t6]) :
    parseRawData pcTs line =
      some { event := jsParseInt t0, date := some t1, time := some (jsParseInt t2),
             adc := jsParseInt t3, sipm := jsParseFloat t4, deadtime := jsParseInt t5,
             temp := jsParseFloat t6, hum := none, press := none, pcTimestamp := none } := by
  unfold parseRawData
  rw [if_neg (by simp [DEBUG]), h]

/-- Computation of `parseRawData` on a line whose trimmed form splits into
nine tokens: humidity and pressure are present. -/
theorem parseRawData_nine (pcTs line t0 t1 t2 t3 t4 t5 t6 t7 t8 : List Char)
    (h : jsSplitWs (jsTrim line) = [t0, t1, t2, t3, t4, t5, t6, t7, t8]) :
    parseRawData pcTs line =
      some { event := jsParseInt t0, date := some t1, time := some (jsParseInt t2),
             adc := jsParseInt t3, sipm := jsParseFloat t4, deadtime := jsParseInt t5,
             temp := jsParseFloat t6, hum := some (jsParseFloat t7),
             press := some (jsParseFloat t8), pcTimestamp := none } := by
  unfold parseRawData
  rw [if_neg (by simp [DEBUG]), h]

/-- Computation of `formatDataForFile` on an event carrying a non-empty date,
a time, and no humidity or pressure: seven tab-joined fields. -/
theorem formatDataForFile_seven (e t a s dt tp : JSNum) (d : List Char) (hd : d ≠ []) :
    formatDataForFile { event := e, date := some d, time := some t, adc := a, sipm := s, deadtime := dt, temp := tp, hum := none, press := none, pcTimestamp := none } =
      tabJoin [jsNumToString e, d, jsNumToString t, jsNumToString a,
               jsNumToString s, jsNumToString dt, jsNumToString tp] := by
  simp [formatDataForFile, hd]

/-- Computation of `formatDataForFile` on an event carrying a non-empty date,
a time, humidity and pressure: nine tab-joined fields. -/
theorem formatDataForFile_nine (e t a s dt tp h p : JSNum) (d : List Char) (hd : d ≠ []) :
    formatDataForFile { event := e, date := some d, time := some t, adc := a, sipm := s, deadtime := dt, temp := tp, hum := some h, press := some p, pcTimestamp := none } =
      tabJoin [jsNumToString e, d, jsNumToString t, jsNumToString a,
               jsNumToString s, jsNumToString dt, jsNumToString tp,
               jsNumToString h, jsNumToString p] := by
  simp [formatDataForFile, hd]

/-- Claim C5, counterexample to the claim as stated: the recognised 6-token
line `"1 2 3 4 5 6"` (all numeric fields valid) does NOT round-trip: the
formatted output inserts the host receipt timestamp as a second token, so
the token sequence differs from the input line's. -/
theorem claim_c5_counterexample :
    (parseRawData samplePcTs c5line6).map formatDataForFile ≠
      some (tabJoin (jsSplitWs (jsTrim c5line6))) := by
  decide

/-- Claim C5 as amended: for 7- and 9-token lines whose date token is
non-empty and whose numeric tokens are canonical (rendering the parsed value
reproduces the token), `parse` followed by `format` yields exactly the
input's token sequence joined by tabs; for 6-token lines with canonical
numeric tokens the output is the input's token sequence with the (non-empty)
host receipt timestamp inserted as a second token, so the input line itself
is not reproduced. -/
theorem claim_c5_amended :
    (∀ pcTs line t0 t1 t2 t3 t4 t5 t6 : List Char,
      jsSplitWs (jsTrim line) = [t0, t1, t2, t3, t4, t5, t6] →
      t1 ≠ [] →
      jsNumToString (jsParseInt t0) = t0 →
      jsNumToString (jsParseInt t2) = t2 →
      jsNumToString (jsParseInt t3) = t3 →
      jsNumToString (jsParseFloat t4) = t4 →
      jsNumToString (jsParseInt t5) = t5 →
      jsNumToString (jsParseFloat t6) = t6 →
      (parseRawData pcTs line).map formatDataForFile =
        some (tabJoin [t0, t1, t2, t3, t4, t5, t6])) ∧
    (∀ pcTs line t0 t1 t2 t3 t4 t5 t6 t7 t8 : List Char,
      jsSplitWs (jsTrim line) = [t0, t1, t2, t3, t4, t5, t6, t7, t8] →
      t1 ≠ [] →
      jsNumToString (jsParseInt t0) = t0 →
      jsNumToString (jsParseInt t2) = t2 →
      jsNumToString (jsParseInt t3) = t3 →
      jsNumToString (jsParseFloat t4) = t4 →
      jsNumToString (jsParseInt t5) = t5 →
      jsNumToString (jsParseFloat t6) = t6 →
      jsNumToString (jsParseFloat t7) = t7 →
      jsNumToString (jsParseFloat t8) = t8 →
      (parseRawData pcTs line).map formatDataForFile =
        some (tabJoin [t0, t1, t2, t3, t4, t5, t6, t7, t8])) ∧
    (∀ pcTs line t0 t1 t2 t3 t4 t5 : List Char,
      jsSplitWs (jsTrim line) = [t0, t1, t2, t3, t4, t5] →
      pcTs ≠ [] →
      jsNumToString (jsParseInt t0) = t0 →
      jsNumToString (jsParseInt t1) = t1 →
      jsNumToString (jsParseInt t2) = t2 →
      jsNumToString (jsParseFloat t3) = t3 →
      jsNumToString (jsParseInt t4) = t4 →
      jsNumToString (jsParseFloat t5) = t5 →
      (parseRawData pcTs line).map formatDataForFile =
        some (tabJoin [t0, pcTs, t1, t2, t3, t4, t5])) := by
  refine ⟨?_, ?_, ?_⟩
  · intro pcTs line t0 t1 t2 t3 t4 t5 t6 hsplit ht1 h0 h2 h3 h4 h5 h6
    rw [parseRawData_seven pcTs line t0 t1 t2 t3 t4 t5 t6 hsplit, Option.map_some',
        formatDataForFile_seven _ _ _ _ _ _ _ ht1, h0, h2, h3, h4, h5, h6]
  · intro pcTs line t0 t1 t2 t3 t4 t5 t6 t7 t8 hsplit ht1 h0 h2 h3 h4 h5 h6 h7 h8
    rw [parseRawData_nine pcTs line t0 t1 t2 t3 t4 t5 t6 t7 t8 hsplit, Option.map_some',
        formatDataForFile_nine _ _ _ _ _ _ _ _ _ ht1, h0, h2, h3, h4, h5, h6, h7, h8]
  · intro pcTs line t0 t1 t2 t3 t4 t5 hsplit hpc h0 h1 h2 h3 h4 h5
    rw [parseRawData_six pcTs line t0 t1 t2 t3 t4 t5 hsplit, Option.map_some',
        formatDataForFile_seven _ _ _ _ _ _ _ hpc, h0, h1, h2, h3, h4, h5]

/-- A 7-token line whose numeric tokens are canonical. -/
def c5wline : List Char := "1 2025-06-18-14-30-25.123 2 3 4.5 6 7.5".data

/-- Claim C5, witness: the concrete 7-token line round-trips to its own
tab-joined token sequence. -/
theorem claim_c5_witness :
    jsSplitWs (jsTrim c5wline) =
      ["1".data, "2025-06-18-14-30-25.123".data, "2".data, "3".data,
       "4.5".data, "6".data, "7.5".data] ∧
    "2025-06-18-14-30-25.123".data ≠ ([] : List Char) ∧
    jsNumToString (jsParseInt "1".data) = "1".data ∧
    jsNumToString (jsParseFloat "4.5".data) = "4.5".data ∧
    (parseRawData samplePcTs c5wline).map formatDataForFile =
      some (tabJoin ["1".data, "2025-06-18-14-30-25.123".data, "2".data, "3".data,
                     "4.5".data, "6".data, "7.5".data]) :=
  ⟨by decide, by decide, by decide, by decide,
    claim_c5_amended.1 samplePcTs c5wline "1".data "2025-06-18-14-30-25.123".data
      "2".data "3".data "4.5".data "6".data "7.5".data
      (by decide) (by decide) (by decide) (by decide) (by decide) (by decide)
      (by decide) (by decide)⟩

end CosmicWatch
